import Mathlib

/-!
Shallow embedding of the cloud-map topology organizer and diagram renderers
(`src/cloud_map/models.py`, `organizer.py`, `diagram.py`,
`presentation/plantuml_generator.py`), together with theorems checking the
natural-language specification against that code.

Python dictionaries (`Dict[str, str]`) are embedded as association lists
looked up first-match-wins; Python `Optional[str]` as `Option String`;
Python string truthiness (`None` and `""` are falsy) is made explicit in the
helper functions below.
-/

/-- Lookup in an embedded Python dict (`d[k]` when present). -/
def dictFind (d : List (String × String)) (k : String) : Option String :=
  (d.find? (fun p => p.1 = k)).map Prod.snd

/-- Embeds Python `d.get(k, dflt)`. -/
def dictGet (d : List (String × String)) (k dflt : String) : String :=
  (dictFind d k).getD dflt

/-- Embeds Python `k in d` for a dict. -/
def dictHas (d : List (String × String)) (k : String) : Bool :=
  (dictFind d k).isSome

/-- Truthiness of an optional Python string: `None` and `""` are falsy. -/
def pyStrTruthy : Option String → Bool
  | none => false
  | some s => !s.isEmpty

/-- Embeds Python `a or b` where `a` is an optional string and `b` a string:
falls back to `b` when `a` is `None` or empty. -/
def pyOrStr (a : Option String) (b : String) : String :=
  match a with
  | none => b
  | some s => if s.isEmpty then b else s

/-- Embeds Python `str(b)` for a bool (`True` / `False`). -/
def pyBoolStr (b : Bool) : String :=
  if b then "True" else "False"

/-- Embeds the Python slice `s[:n]` (by code point). -/
def strTake (s : String) (n : Nat) : String :=
  String.mk (s.data.take n)

/-- Embeds Python `s.replace(c₁, c₂)` for single-character patterns. -/
def pyReplaceChar (c₁ c₂ : Char) (s : String) : String :=
  String.mk (s.data.map (fun c => if c = c₁ then c₂ else c))

/-- Truthiness of the optional `vpc_config` dict: `None` and `{}` are falsy. -/
def vpcConfigTruthy : Option (List (String × String)) → Bool
  | none => false
  | some d => !d.isEmpty

/-- Batches a list into consecutive groups of three, embedding the Python
loop `for i in range(0, len(xs), 3): xs[i:i+3]`. -/
def chunks3 {α : Type} : List α → List (List α)
  | [] => []
  | [a] => [[a]]
  | [a, b] => [[a, b]]
  | a :: b :: c :: rest => [a, b, c] :: chunks3 rest

/-- Name resolution performed by `BaseResource.__post_init__`
(models.py lines 17-19): when the stored name is falsy and the tags contain
key `"Name"`, the name becomes that tag value. -/
def resolveName (name : Option String) (tags : List (String × String)) : Option String :=
  if !pyStrTruthy name && dictHas tags "Name" then dictFind tags "Name" else name

/-- VPC resource record (models.py `VPC`), in its post-`__post_init__` state. -/
structure VPC where
  resource_id : String
  resource_type : String
  region : String
  tags : List (String × String)
  cidr_block : String
  state : String
  is_default : Bool
  name : Option String
deriving DecidableEq, Repr

/-- Constructing a `VPC` (models.py dataclass construction followed by
`__post_init__`): the display name is resolved from tags, and the
`resource_type` discriminator is forced to `"vpc"`. -/
def mkVPC (resource_id region : String) (tags : List (String × String))
    (cidr_block state : String) (is_default : Bool) (name : Option String) : VPC :=
  { resource_id := resource_id
    resource_type := "vpc"
    region := region
    tags := tags
    cidr_block := cidr_block
    state := state
    is_default := is_default
    name := resolveName name tags }

/-- Subnet resource record (models.py `Subnet`). -/
structure Subnet where
  resource_id : String
  resource_type : String
  region : String
  tags : List (String × String)
  vpc_id : String
  cidr_block : String
  availability_zone : String
  state : String
  map_public_ip_on_launch : Bool
  name : Option String
deriving DecidableEq, Repr

/-- Route table resource record (models.py `RouteTable`); each route is a
Python `Dict[str, str]`. -/
structure RouteTable where
  resource_id : String
  resource_type : String
  region : String
  tags : List (String × String)
  vpc_id : String
  routes : List (List (String × String))
  subnet_associations : List String
  name : Option String
deriving DecidableEq, Repr

/-- Internet gateway resource record (models.py `InternetGateway`);
`vpc_id` is `Optional[str]` in the source. -/
structure InternetGateway where
  resource_id : String
  resource_type : String
  region : String
  tags : List (String × String)
  vpc_id : Option String
  state : String
  name : Option String
deriving DecidableEq, Repr

/-- EC2 instance resource record (models.py `EC2Instance`). -/
structure EC2Instance where
  resource_id : String
  resource_type : String
  region : String
  tags : List (String × String)
  instance_type : String
  state : String
  vpc_id : String
  subnet_id : String
  private_ip : String
  security_groups : List String
  public_ip : Option String
  name : Option String
deriving DecidableEq, Repr

/-- Lambda function resource record (models.py `LambdaFunction`). -/
structure LambdaFunction where
  resource_id : String
  resource_type : String
  region : String
  tags : List (String × String)
  function_name : String
  runtime : String
  state : String
  subnet_ids : List String
  security_group_ids : List String
  vpc_config : Option (List (String × String))
  name : Option String
deriving DecidableEq, Repr

/-- Route53 hosted zone resource record (models.py `Route53HostedZone`). -/
structure Route53HostedZone where
  resource_id : String
  resource_type : String
  region : String
  tags : List (String × String)
  zone_name : String
  zone_id : String
  private_zone : Bool
  record_count : Nat
  vpc_associations : List String
  name : Option String
deriving DecidableEq, Repr

/-- API gateway resource record (models.py `APIGateway`). -/
structure APIGateway where
  resource_id : String
  resource_type : String
  region : String
  tags : List (String × String)
  api_name : String
  api_type : String
  protocol_type : String
  endpoint_type : String
  vpc_links : List String
  name : Option String
deriving DecidableEq, Repr

/-- Modelled from the spec: the NAT gateway resource record. The Python class
lives in the discovery/model code of the `executor` package, which is missing
from the repository snapshot; spec §3 states it is a resource record whose
effective parent subnet is a single `subnet_id` that may be absent. -/
structure NatGateway where
  resource_id : String
  resource_type : String
  region : String
  tags : List (String × String)
  subnet_id : Option String
  state : String
  name : Option String
deriving DecidableEq, Repr

/-- Organized per-VPC topology (organizer.py `NetworkTopology`). -/
structure NetworkTopology where
  vpc : VPC
  subnets : List Subnet
  route_tables : List RouteTable
  internet_gateways : List InternetGateway
  ec2_instances : List EC2Instance
  lambda_functions : List LambdaFunction
deriving DecidableEq, Repr

/-- Accessor `NetworkTopology.get_subnet_by_id` (organizer.py line 20-22). -/
def NetworkTopology.get_subnet_by_id (t : NetworkTopology) (subnet_id : String) : Option Subnet :=
  t.subnets.find? (fun subnet => subnet.resource_id = subnet_id)

/-- Accessor `NetworkTopology.get_instances_by_subnet` (organizer.py 24-26). -/
def NetworkTopology.get_instances_by_subnet (t : NetworkTopology) (subnet_id : String) : List EC2Instance :=
  t.ec2_instances.filter (fun inst => inst.subnet_id = subnet_id)

/-- Accessor `NetworkTopology.get_lambda_functions_by_subnet` (organizer.py 28-30). -/
def NetworkTopology.get_lambda_functions_by_subnet (t : NetworkTopology) (subnet_id : String) : List LambdaFunction :=
  t.lambda_functions.filter (fun func => func.subnet_ids.contains subnet_id)

/-- Accessor `NetworkTopology.get_public_subnets` (organizer.py 32-34). -/
def NetworkTopology.get_public_subnets (t : NetworkTopology) : List Subnet :=
  t.subnets.filter (fun subnet => subnet.map_public_ip_on_launch)

/-- Accessor `NetworkTopology.get_private_subnets` (organizer.py 36-38). -/
def NetworkTopology.get_private_subnets (t : NetworkTopology) : List Subnet :=
  t.subnets.filter (fun subnet => !subnet.map_public_ip_on_launch)

/-- Account-level topology (organizer.py `AccountTopology`). -/
structure AccountTopology where
  region : String
  vpcs : List NetworkTopology
deriving DecidableEq, Repr

/-- Accessor `AccountTopology.get_all_instances` (organizer.py 52-57). -/
def AccountTopology.get_all_instances (a : AccountTopology) : List EC2Instance :=
  a.vpcs.flatMap (fun vpc_topology => vpc_topology.ec2_instances)

/-- Accessor `AccountTopology.get_all_subnets` (organizer.py 59-64). -/
def AccountTopology.get_all_subnets (a : AccountTopology) : List Subnet :=
  a.vpcs.flatMap (fun vpc_topology => vpc_topology.subnets)

/-- The per-VPC join of `ResourceOrganizer.organize_network_topology`
(organizer.py lines 84-104) for one VPC of the input list. -/
def organizeOneVPC (subnets : List Subnet) (route_tables : List RouteTable)
    (internet_gateways : List InternetGateway) (ec2_instances : List EC2Instance)
    (lambda_functions : List LambdaFunction) (vpc : VPC) : NetworkTopology :=
  let vpc_subnets := subnets.filter (fun subnet => subnet.vpc_id = vpc.resource_id)
  let vpc_route_tables := route_tables.filter (fun rt => rt.vpc_id = vpc.resource_id)
  let vpc_gateways := internet_gateways.filter (fun igw => igw.vpc_id = some vpc.resource_id)
  let vpc_instances := ec2_instances.filter (fun inst => inst.vpc_id = vpc.resource_id)
  let vpc_lambda_functions := lambda_functions.filter (fun func =>
    vpcConfigTruthy func.vpc_config &&
      (vpc_subnets.filter (fun subnet => func.subnet_ids.contains subnet.resource_id)).any
        (fun subnet => subnet.vpc_id = vpc.resource_id))
  { vpc := vpc
    subnets := vpc_subnets
    route_tables := vpc_route_tables
    internet_gateways := vpc_gateways
    ec2_instances := vpc_instances
    lambda_functions := vpc_lambda_functions }

/-- `ResourceOrganizer.organize_network_topology` (organizer.py 70-106):
one `NetworkTopology` per input VPC, in input order. -/
def organize_network_topology (vpcs : List VPC) (subnets : List Subnet)
    (route_tables : List RouteTable) (internet_gateways : List InternetGateway)
    (ec2_instances : List EC2Instance) (lambda_functions : List LambdaFunction) :
    List NetworkTopology :=
  vpcs.map (organizeOneVPC subnets route_tables internet_gateways ec2_instances lambda_functions)

/-- `ResourceOrganizer.create_account_topology` (organizer.py 108-118). -/
def create_account_topology (region : String) (network_topologies : List NetworkTopology) :
    AccountTopology :=
  { region := region, vpcs := network_topologies }

/-- Text renderer state (diagram.py `TextDiagramGenerator.__init__`): its only
attribute is `indent_size`, defaulting to 2. The output sink is embedded by
returning the list of strings passed to `output.write`, in order; the bytes
written are their concatenation. -/
structure TextDiagramGenerator where
  indent_size : Nat
deriving DecidableEq, Repr

/-- Method `_indent` (diagram.py 14-16). -/
def TextDiagramGenerator.indent (g : TextDiagramGenerator) (level : Nat) : String :=
  String.mk (List.replicate (level * g.indent_size) ' ')

/-- The chunks written for one subnet inside `generate_subnet_diagram`
(diagram.py 22-38). -/
def subnetReportChunks (g : TextDiagramGenerator) (t : NetworkTopology) (subnet : Subnet) :
    List String :=
  let subnet_type := if subnet.map_public_ip_on_launch then "Public" else "Private"
  [g.indent 1 ++ (subnet_type ++ (" Subnet: " ++ (pyOrStr subnet.name subnet.resource_id ++ "\n"))),
   g.indent 2 ++ ("CIDR: " ++ (subnet.cidr_block ++ "\n")),
   g.indent 2 ++ ("AZ: " ++ (subnet.availability_zone ++ "\n"))] ++
  (let instances := t.get_instances_by_subnet subnet.resource_id
   if instances.isEmpty then [] else
     (g.indent 2 ++ "EC2 Instances:\n") ::
       instances.flatMap (fun inst =>
         [g.indent 3 ++ (pyOrStr inst.name inst.resource_id ++ "\n"),
          g.indent 4 ++ ("Type: " ++ (inst.instance_type ++ "\n")),
          g.indent 4 ++ ("State: " ++ (inst.state ++ "\n")),
          g.indent 4 ++ ("Private IP: " ++ (inst.private_ip ++ "\n"))] ++
         (if pyStrTruthy inst.public_ip then
            [g.indent 4 ++ ("Public IP: " ++ (inst.public_ip.getD "" ++ "\n"))]
          else []))) ++
  ["\n"]

/-- Method `generate_subnet_diagram` (diagram.py 18-38). -/
def TextDiagramGenerator.generate_subnet_diagram (g : TextDiagramGenerator)
    (t : NetworkTopology) : List String :=
  ("VPC: " ++ (pyOrStr t.vpc.name t.vpc.resource_id ++ (" (" ++ (t.vpc.cidr_block ++ ")\n")))) ::
    t.subnets.flatMap (subnetReportChunks g t)

/-- Method `generate_vpc_diagram` (diagram.py 40-64). -/
def TextDiagramGenerator.generate_vpc_diagram (g : TextDiagramGenerator)
    (t : NetworkTopology) : List String :=
  ["VPC: " ++ (pyOrStr t.vpc.name t.vpc.resource_id ++ "\n"),
   g.indent 1 ++ ("CIDR: " ++ (t.vpc.cidr_block ++ "\n")),
   g.indent 1 ++ ("State: " ++ (t.vpc.state ++ "\n")),
   g.indent 1 ++ ("Default: " ++ (pyBoolStr t.vpc.is_default ++ "\n"))] ++
  (if t.internet_gateways.isEmpty then [] else
    (g.indent 1 ++ "Internet Gateways:\n") ::
      t.internet_gateways.map (fun igw =>
        g.indent 2 ++ (igw.resource_id ++ (" (" ++ (igw.state ++ ")\n"))))) ++
  (let public_subnets := t.get_public_subnets
   if public_subnets.isEmpty then [] else
     [g.indent 1 ++ ("Public Subnets: " ++ (toString public_subnets.length ++ "\n"))]) ++
  (let private_subnets := t.get_private_subnets
   if private_subnets.isEmpty then [] else
     [g.indent 1 ++ ("Private Subnets: " ++ (toString private_subnets.length ++ "\n"))]) ++
  (let total_instances := t.ec2_instances.length
   if total_instances = 0 then [] else
     [g.indent 1 ++ ("Total EC2 Instances: " ++ (toString total_instances ++ "\n"))]) ++
  ["\n"]

/-- Method `generate_account_diagram` (diagram.py 66-75). -/
def TextDiagramGenerator.generate_account_diagram (g : TextDiagramGenerator)
    (a : AccountTopology) : List String :=
  ["AWS Account - Region: " ++ (a.region ++ "\n"),
   "Total VPCs: " ++ (toString a.vpcs.length ++ "\n"),
   "Total Instances: " ++ (toString a.get_all_instances.length ++ "\n"),
   "Total Subnets: " ++ (toString a.get_all_subnets.length ++ "\n"),
   "\n"] ++
  a.vpcs.flatMap (fun vpc_topology => g.generate_vpc_diagram vpc_topology)

/-- Method `generate_full_diagram` (diagram.py 77-90). -/
def TextDiagramGenerator.generate_full_diagram (g : TextDiagramGenerator)
    (a : AccountTopology) : List String :=
  [String.mk (List.replicate 60 '=') ++ "\n",
   "AWS CLOUD INFRASTRUCTURE MAP\n",
   String.mk (List.replicate 60 '=') ++ "\n\n"] ++
  g.generate_account_diagram a ++
  ["DETAILED VPC BREAKDOWN:\n",
   String.mk (List.replicate 30 '-') ++ "\n\n"] ++
  a.vpcs.flatMap (fun vpc_topology =>
    g.generate_subnet_diagram vpc_topology ++ [String.mk (List.replicate 30 '-') ++ "\n"])

/-- One call of `generate_full_diagram` with its generator state threaded
through: the method body of diagram.py 77-90 assigns no attribute of `self`,
so the state after the call is the receiver unchanged, and the chunks written
are a function of the state and the argument only. -/
def TextDiagramGenerator.generate_full_diagramRun (g : TextDiagramGenerator)
    (a : AccountTopology) : TextDiagramGenerator × List String :=
  (g, g.generate_full_diagram a)

/-- Bytes written to the sink: the concatenation of the chunks. -/
def outputString (chunks : List String) : String :=
  String.join chunks

/-- Modelled from the spec: the organized per-VPC topology consumed by the
PlantUML renderer. `presentation/plantuml_generator.py` imports
`NetworkTopology` from `..executor.organizer`, a module absent from the
repository snapshot; per spec §3 this topology additionally holds the VPC's
NAT gateways, its associated DNS zones and its API endpoints. -/
structure ExtNetworkTopology where
  vpc : VPC
  subnets : List Subnet
  route_tables : List RouteTable
  internet_gateways : List InternetGateway
  ec2_instances : List EC2Instance
  lambda_functions : List LambdaFunction
  nat_gateways : List NatGateway
  route53_zones : List Route53HostedZone
  api_gateways : List APIGateway
deriving DecidableEq, Repr

/-- Modelled from the spec: the query-surface accessor "list instances by
subnet id" (spec §4.1) of the missing `executor.organizer` topology, with the
same semantics as organizer.py 24-26. -/
def ExtNetworkTopology.get_instances_by_subnet (t : ExtNetworkTopology)
    (subnet_id : String) : List EC2Instance :=
  t.ec2_instances.filter (fun inst => inst.subnet_id = subnet_id)

/-- Modelled from the spec: the account topology consumed by the PlantUML
renderer (a region plus an ordered sequence of per-VPC topologies, spec §3). -/
structure ExtAccountTopology where
  region : String
  vpcs : List ExtNetworkTopology
deriving DecidableEq, Repr

/-- One step of the AZ-grouping loop of `_generate_vpc_diagram_lines`
(plantuml_generator.py 92-101): ensure the subnet's AZ has an entry
(appending a fresh empty one in first-seen position otherwise), then append
the subnet to the entry's public or private list. -/
def azInsert (groups : List (String × (List Subnet × List Subnet))) (subnet : Subnet) :
    List (String × (List Subnet × List Subnet)) :=
  let az := subnet.availability_zone
  let groups' := if groups.any (fun g => g.1 = az) then groups else groups ++ [(az, ([], []))]
  groups'.map (fun g =>
    if g.1 = az then
      (g.1,
       if subnet.map_public_ip_on_launch then (g.2.1 ++ [subnet], g.2.2)
       else (g.2.1, g.2.2 ++ [subnet]))
    else g)

/-- The insertion-ordered dict `az_groups` of plantuml_generator.py 92-101:
grouping key is the AZ string, groups kept in first-seen order, each group
split into public and private subnets in input order. -/
def az_groups (subnets : List Subnet) : List (String × (List Subnet × List Subnet)) :=
  subnets.foldl azInsert []

/-- Node line for one EC2 instance (plantuml_generator.py 138 and 165). -/
def ec2InstanceLine (inst : EC2Instance) : String :=
  "        EC2Instance(" ++ (pyReplaceChar '-' '_' inst.resource_id ++ (", \"" ++
    (pyOrStr inst.name "Instance" ++ ("\\n" ++ (inst.instance_type ++ "\", \"\") #Transparent")))))

/-- Lines for one row of up to three instances: the instance nodes followed by
the hidden same-row alignment edges (plantuml_generator.py 130-143, 157-170). -/
def rowLines (row : List EC2Instance) : List String :=
  row.map ec2InstanceLine ++
  (if row.length > 1 then
    (let ids := row.map (fun inst => pyReplaceChar '-' '_' inst.resource_id)
     (ids.zip ids.tail).map (fun p => "        " ++ (p.1 ++ (" -[hidden]r- " ++ p.2))))
   else [])

/-- Instance lines of one subnet, batched into rows of three. -/
def instancesRowsLines (instances : List EC2Instance) : List String :=
  if instances.isEmpty then [] else (chunks3 instances).flatMap rowLines

/-- Node line for one NAT gateway (plantuml_generator.py 124). -/
def natGatewayLine (nat : NatGateway) : String :=
  "        VPCNATGateway(" ++ (pyReplaceChar '-' '_' nat.resource_id ++ (", \"" ++
    (pyOrStr nat.name "NAT Gateway" ++ "\", \"\") #Transparent")))

/-- Lines of one public subnet container (plantuml_generator.py 113-145). -/
def pubSubnetLines (t : ExtNetworkTopology) (subnet : Subnet) : List String :=
  ("      PublicSubnetGroup(" ++ (pyReplaceChar '-' '_' subnet.resource_id ++
      (", \"Public subnet\\n" ++ (subnet.cidr_block ++ "\") \x7b")))) ::
    ((t.nat_gateways.filter (fun nat => nat.subnet_id = some subnet.resource_id)).map
        natGatewayLine ++
      instancesRowsLines (t.get_instances_by_subnet subnet.resource_id) ++
      ["      \x7d"])

/-- Lines of one private subnet container (plantuml_generator.py 148-172). -/
def privSubnetLines (t : ExtNetworkTopology) (subnet : Subnet) : List String :=
  ("      PrivateSubnetGroup(" ++ (pyReplaceChar '-' '_' subnet.resource_id ++
      (", \"Private subnet\\n" ++ (subnet.cidr_block ++ "\") \x7b")))) ::
    (instancesRowsLines (t.get_instances_by_subnet subnet.resource_id) ++
      ["      \x7d"])

/-- Lines of one availability-zone container (plantuml_generator.py 107-174). -/
def azLines (t : ExtNetworkTopology) (g : String × (List Subnet × List Subnet)) : List String :=
  ["",
   "    AvailabilityZoneGroup(" ++ (pyReplaceChar '.' '_' (pyReplaceChar '-' '_' g.1) ++
     (", \"\\t" ++ (g.1 ++ "\\t\") \x7b")))] ++
  g.2.1.flatMap (pubSubnetLines t) ++
  g.2.2.flatMap (privSubnetLines t) ++
  ["    \x7d"]

/-- The internet-gateway identifiers collected while emitting their nodes
(plantuml_generator.py 85-89). -/
def igwIds (t : ExtNetworkTopology) : List String :=
  t.internet_gateways.map (fun igw => pyReplaceChar '-' '_' igw.resource_id)

/-- The NAT-gateway identifiers collected while traversing public subnets in
AZ order (plantuml_generator.py 103, 118-124). -/
def natGatewayIds (t : ExtNetworkTopology) : List String :=
  (az_groups t.subnets).flatMap (fun g =>
    g.2.1.flatMap (fun subnet =>
      (t.nat_gateways.filter (fun nat => nat.subnet_id = some subnet.resource_id)).map
        (fun nat => pyReplaceChar '-' '_' nat.resource_id)))

/-- The EC2 identifiers collected while traversing public then private subnets
in AZ order (plantuml_generator.py 104, 126-138, 153-165). -/
def ec2Ids (t : ExtNetworkTopology) : List String :=
  (az_groups t.subnets).flatMap (fun g =>
    (g.2.1 ++ g.2.2).flatMap (fun subnet =>
      (t.get_instances_by_subnet subnet.resource_id).map
        (fun inst => pyReplaceChar '-' '_' inst.resource_id)))

/-- The network-flow edge lines (plantuml_generator.py 197-217). -/
def flowLines (t : ExtNetworkTopology) : List String :=
  let nat_gateway_ids := natGatewayIds t
  let igw_ids := igwIds t
  (if !nat_gateway_ids.isEmpty && !igw_ids.isEmpty then
    "\x27 Network Flow Connections" ::
      nat_gateway_ids.map (fun nat_id => nat_id ++ (" .u.> " ++ igw_ids.headD ""))
   else []) ++
  (if !(ec2Ids t).isEmpty && !nat_gateway_ids.isEmpty then
    (az_groups t.subnets).flatMap (fun g =>
      g.2.2.flatMap (fun subnet =>
        (t.get_instances_by_subnet subnet.resource_id).map (fun inst =>
          pyReplaceChar '-' '_' inst.resource_id ++ (" .u.> " ++ nat_gateway_ids.headD ""))))
   else []) ++
  (if nat_gateway_ids.length > 1 && !igw_ids.isEmpty then
    nat_gateway_ids.tail.map (fun nat_id => nat_id ++ (" .[hidden]u.> " ++ igw_ids.headD ""))
   else [])

/-- Method `_generate_vpc_diagram_lines` (plantuml_generator.py 74-221). -/
def vpcDiagramLines (t : ExtNetworkTopology) : List String :=
  let vpc_name := pyOrStr t.vpc.name t.vpc.resource_id
  let vpc_id := pyReplaceChar '-' '_' t.vpc.resource_id
  ["AWSCloudGroup(cloud_" ++ (vpc_id ++ ") \x7b"),
   "  VPCGroup(" ++ (vpc_id ++ (", \"" ++ (vpc_name ++ "\") \x7b")))] ++
  t.internet_gateways.map (fun igw =>
    "    VPCInternetGateway(" ++ (pyReplaceChar '-' '_' igw.resource_id ++
      ", \"Internet Gateway\", \"\")")) ++
  (az_groups t.subnets).flatMap (azLines t) ++
  ["  \x7d", "\x7d"] ++
  t.route53_zones.map (fun zone =>
    "Route53(" ++ (pyReplaceChar '-' '_' zone.resource_id ++ (", \"" ++ (zone.zone_name ++
      ("\\n" ++ ((if zone.private_zone then "Private" else "Public") ++ " Zone\", \"\")")))))) ++
  t.api_gateways.map (fun api =>
    "APIGateway(" ++ (pyReplaceChar '-' '_' api.resource_id ++ (", \"" ++ (api.api_name ++
      ("\\n" ++ (api.api_type ++ "\", \"\")")))))) ++
  [""] ++
  flowLines t ++
  [""]

/-- The fixed document preamble (plantuml_generator.py 28-49). -/
def plantumlPreamble (region : String) : List String :=
  ["@startuml",
   "!define AWSPuml https://raw.githubusercontent.com/awslabs/aws-icons-for-plantuml/v20.0/dist",
   "!include AWSPuml/AWSCommon.puml",
   "!include AWSPuml/AWSSimplified.puml",
   "!include AWSPuml/Compute/EC2.puml",
   "!include AWSPuml/Compute/EC2Instance.puml",
   "!include AWSPuml/Compute/Lambda.puml",
   "!include AWSPuml/NetworkingContentDelivery/VPCNATGateway.puml",
   "!include AWSPuml/NetworkingContentDelivery/VPCInternetGateway.puml",
   "!include AWSPuml/NetworkingContentDelivery/APIGateway.puml",
   "!include AWSPuml/NetworkingContentDelivery/Route53.puml",
   "!include AWSPuml/Groups/AWSCloud.puml",
   "!include AWSPuml/Groups/VPC.puml",
   "!include AWSPuml/Groups/PublicSubnet.puml",
   "!include AWSPuml/Groups/PrivateSubnet.puml",
   "!include AWSPuml/Groups/AvailabilityZone.puml",
   "",
   "hide stereotype",
   "skinparam linetype ortho",
   "",
   "title AWS Infrastructure - " ++ region,
   ""]

/-- One data row of the trailing routing-table note (plantuml_generator.py 68). -/
def routeRow (rt_name dest gateway status : String) : String :=
  "| " ++ (rt_name ++ (" | " ++ (dest ++ (" | " ++ (gateway ++ (" | " ++ (status ++ " |")))))))

/-- The data rows of the trailing routing-table note
(plantuml_generator.py 61-68): first 5 route tables of each topology, first 3
routes per table, fields truncated. -/
def routeTableNoteRows (a : ExtAccountTopology) : List String :=
  a.vpcs.flatMap (fun network_topology =>
    (network_topology.route_tables.take 5).flatMap (fun rt =>
      let rt_name := strTake (pyOrStr rt.name rt.resource_id) 20
      (rt.routes.take 3).map (fun route =>
        routeRow rt_name
          (strTake (dictGet route "destination" "N/A") 18)
          (strTake (dictGet route "gateway_id" "local") 18)
          (strTake (dictGet route "state" "active") 10))))

/-- Lines of the whole document, method `_generate_plantuml_content`
(plantuml_generator.py 25-72) before joining. -/
def plantumlLines (a : ExtAccountTopology) : List String :=
  plantumlPreamble a.region ++
  a.vpcs.flatMap vpcDiagramLines ++
  (if a.vpcs.any (fun vpc => !vpc.route_tables.isEmpty) then
    ["",
     "note bottom",
     "<size:12><b>Routing Tables</b></size>",
     "<#lightblue,#black>|= Route Table |= Destination |= Target |= Status |"] ++
    routeTableNoteRows a ++
    ["end note"]
   else []) ++
  ["@enduml"]

/-- Method `_generate_plantuml_content`: the document string written to the
sink by `PlantUMLDiagramGenerator.generate_full_diagram`
(plantuml_generator.py 16-23, 72). -/
def plantumlContent (a : ExtAccountTopology) : String :=
  String.intercalate "\n" (plantumlLines a)

/-- One step of first-seen AZ collection: append the subnet's AZ unless
already recorded. -/
def azStep (acc : List String) (s : Subnet) : List String :=
  if acc.contains s.availability_zone then acc else acc ++ [s.availability_zone]

/-- First-seen ordering of availability-zone strings, following the words of
spec §4.2 step 4 ("grouping key = AZ string, groups kept in first-seen
order"); used to compare the implemented grouping with the specified one. -/
def azFirstSeen (subnets : List Subnet) : List String :=
  subnets.foldl azStep []

/-- The AZ grouping as the spec words it (spec §4.2 step 4 and §8): one group
per AZ in first-seen order, holding the public subnets of that AZ in input
order and the private subnets of that AZ in input order. -/
def azGroupsSpec (subnets : List Subnet) : List (String × (List Subnet × List Subnet)) :=
  (azFirstSeen subnets).map (fun az =>
    (az,
     (subnets.filter (fun s => s.availability_zone == az && s.map_public_ip_on_launch),
      subnets.filter (fun s => s.availability_zone == az && !s.map_public_ip_on_launch))))

/-! Concrete fixtures used by counterexamples and witnesses. -/

/-- Example VPC `vpc-1`. -/
def vpcA : VPC :=
  { resource_id := "vpc-1", resource_type := "vpc", region := "us-east-1", tags := []
    cidr_block := "10.0.0.0/16", state := "available", is_default := false, name := none }

/-- A second VPC record carrying the same `resource_id` as `vpcA` but a
different CIDR block. -/
def vpcA' : VPC :=
  { resource_id := "vpc-1", resource_type := "vpc", region := "us-east-1", tags := []
    cidr_block := "10.1.0.0/16", state := "available", is_default := false, name := none }

/-- Example public subnet `subnet-1` of `vpc-1`. -/
def subnetA : Subnet :=
  { resource_id := "subnet-1", resource_type := "subnet", region := "us-east-1", tags := []
    vpc_id := "vpc-1", cidr_block := "10.0.1.0/24", availability_zone := "us-east-1a"
    state := "available", map_public_ip_on_launch := true, name := none }

/-- Example Lambda function declaring `subnet-1` but constructed with
`vpc_config = None`. -/
def lamNoCfg : LambdaFunction :=
  { resource_id := "lam-1", resource_type := "lambda_function", region := "us-east-1"
    tags := [], function_name := "fn", runtime := "python3.11", state := "Active"
    subnet_ids := ["subnet-1"], security_group_ids := [], vpc_config := none, name := none }

/-- Example Lambda function declaring `subnet-1` with a non-empty
`vpc_config`. -/
def lamWithCfg : LambdaFunction :=
  { resource_id := "lam-2", resource_type := "lambda_function", region := "us-east-1"
    tags := [], function_name := "fn2", runtime := "python3.11", state := "Active"
    subnet_ids := ["subnet-1"], security_group_ids := []
    vpc_config := [("SubnetIds", "subnet-1")], name := none }

/-- Example EC2 instance in `vpc-1` whose `subnet_id` (`subnet-9`) matches no
subnet of the topology. -/
def instOrphan : EC2Instance :=
  { resource_id := "i-1", resource_type := "ec2_instance", region := "us-east-1", tags := []
    instance_type := "t3.micro", state := "running", vpc_id := "vpc-1", subnet_id := "subnet-9"
    private_ip := "10.0.1.5", security_groups := [], public_ip := none, name := none }

/-- A route table with the given index in its id and five routes. -/
def rt5 (n : Nat) : RouteTable :=
  { resource_id := "rtb-" ++ toString n, resource_type := "route_table", region := "us-east-1"
    tags := [], vpc_id := "vpc-1"
    routes := List.replicate 5 [("destination", "10.0.0.0/16"), ("gateway_id", "local")]
    subnet_associations := [], name := none }

/-- Extended topology holding the first four of seven route tables. -/
def extT1 : ExtNetworkTopology :=
  { vpc := vpcA, subnets := [], route_tables := [rt5 1, rt5 2, rt5 3, rt5 4]
    internet_gateways := [], ec2_instances := [], lambda_functions := []
    nat_gateways := [], route53_zones := [], api_gateways := [] }

/-- Extended topology holding the remaining three of seven route tables. -/
def extT2 : ExtNetworkTopology :=
  { vpc := vpcA', subnets := [], route_tables := [rt5 5, rt5 6, rt5 7]
    internet_gateways := [], ec2_instances := [], lambda_functions := []
    nat_gateways := [], route53_zones := [], api_gateways := [] }

/-- Account with seven route tables spread over two topologies. -/
def extAcc2 : ExtAccountTopology :=
  { region := "us-east-1", vpcs := [extT1, extT2] }

/-- Extended topology holding all seven route tables in one VPC. -/
def extT7 : ExtNetworkTopology :=
  { vpc := vpcA, subnets := [], route_tables := [rt5 1, rt5 2, rt5 3, rt5 4, rt5 5, rt5 6, rt5 7]
    internet_gateways := [], ec2_instances := [], lambda_functions := []
    nat_gateways := [], route53_zones := [], api_gateways := [] }

/-- Account with seven route tables in a single topology. -/
def extAcc1 : ExtAccountTopology :=
  { region := "us-east-1", vpcs := [extT7] }

/-! Theorems. -/

/-- Helper: two strings built by appending onto literal prefixes differ when
the prefixes differ at some index within both. -/
theorem append_ne_append (p q x y : String) (i : Nat)
    (hp : i < p.data.length) (hq : i < q.data.length)
    (h : p.data[i]? ≠ q.data[i]?) : p ++ x ≠ q ++ y := by
  intro heq
  apply h
  have hd := congrArg String.data heq
  rw [String.data_append, String.data_append] at hd
  have h1 : (p.data ++ x.data)[i]? = p.data[i]? := by rw [List.getElem?_append, if_pos hp]
  have h2 : (q.data ++ y.data)[i]? = q.data[i]? := by rw [List.getElem?_append, if_pos hq]
  rw [← h1, ← h2, hd]

/-- C8: a resource constructed with no explicit name and tags containing key
`"Name"` resolves its display name, at construction time, to that tag value;
constructed with empty tags the name stays absent and the rendering fallback
`name or resource_id` yields the resource id. -/
theorem name_derivation (rid region cidr st : String) (d : Bool)
    (tags : List (String × String)) (v : String)
    (h : dictFind tags "Name" = some v) :
    (mkVPC rid region tags cidr st d none).name = some v ∧
    (mkVPC rid region [] cidr st d none).name = none ∧
    pyOrStr (mkVPC rid region [] cidr st d none).name rid = rid := by
  refine ⟨?_, rfl, rfl⟩
  simp [mkVPC, resolveName, pyStrTruthy, dictHas, h]

/-- Witness for C8 at the spec's example `tags = {"Name": "web-1"}`. -/
theorem name_derivation_witness :
    (mkVPC "vpc-1" "us-east-1" [("Name", "web-1")] "10.0.0.0/16" "available" false none).name
      = some "web-1" :=
  (name_derivation "vpc-1" "us-east-1" "10.0.0.0/16" "available" false
    [("Name", "web-1")] "web-1" (by decide)).1

/-- C9: one rendering call is a pure function of the generator state and the
topology value, and leaves the generator state unchanged (the source method
assigns no attribute); hence two successive calls on the same
`AccountTopology` value write byte-identical output. -/
theorem renderer_idempotent (g : TextDiagramGenerator) (a : AccountTopology) :
    (g.generate_full_diagramRun a).1 = g ∧
    outputString ((g.generate_full_diagramRun a).1.generate_full_diagramRun a).2 =
      outputString (g.generate_full_diagramRun a).2 :=
  ⟨rfl, rfl⟩

/-- C1: the PlantUML renderer is total: for every extended account topology it
produces a document consisting of the fixed preamble, some middle lines, and
the closing `@enduml` marker, and the per-VPC pass (which reads the
topology's `nat_gateways`, `route53_zones` and `api_gateways`) yields for
every contained topology a block opening with its cloud-group container. -/
theorem plantuml_renders_every_topology (a : ExtAccountTopology) :
    (∃ mid, plantumlContent a =
        String.intercalate "\n" (plantumlPreamble a.region ++ (mid ++ ["@enduml"]))) ∧
    ∀ t, t ∈ a.vpcs → ∃ rest, vpcDiagramLines t =
        ("AWSCloudGroup(cloud_" ++ (pyReplaceChar '-' '_' t.vpc.resource_id ++ ") \x7b")) :: rest := by
  constructor
  · refine ⟨a.vpcs.flatMap vpcDiagramLines ++
      (if a.vpcs.any (fun vpc => !vpc.route_tables.isEmpty) then
        ["",
         "note bottom",
         "<size:12><b>Routing Tables</b></size>",
         "<#lightblue,#black>|= Route Table |= Destination |= Target |= Status |"] ++
        routeTableNoteRows a ++
        ["end note"]
       else []), ?_⟩
    rw [plantumlContent, plantumlLines]
    simp [List.append_assoc]
  · intro t _
    exact ⟨_, rfl⟩

/-- Witness for C1 at a concrete topology of a concrete account. -/
theorem plantuml_renders_every_topology_witness :
    ∃ rest, vpcDiagramLines extT1 =
      ("AWSCloudGroup(cloud_" ++ (pyReplaceChar '-' '_' extT1.vpc.resource_id ++ ") \x7b")) :: rest :=
  (plantuml_renders_every_topology extAcc2).2 extT1 (by simp [extAcc2])

/-- Counterexample to C4: a Lambda function whose `subnet_ids` intersect the
VPC's subnets but whose `vpc_config` is `None` is not placed in the VPC's
topology, although the claimed "iff" requires it to be. -/
theorem lambda_join_cex :
    ((organize_network_topology [vpcA] [subnetA] [] [] [] [lamNoCfg]).map
        (fun t => t.lambda_functions)) = [[]] ∧
    subnetA.vpc_id = vpcA.resource_id ∧
    subnetA.resource_id ∈ lamNoCfg.subnet_ids := by decide

/-- C4 as amended: a Lambda function is placed in a VPC's topology iff it is
in the input list, its `vpc_config` is present and non-empty (Python
truthiness), and at least one of its `subnet_ids` resolves to a subnet placed
under that VPC. -/
theorem lambda_join_characterization (vpcs : List VPC) (subnets : List Subnet)
    (route_tables : List RouteTable) (internet_gateways : List InternetGateway)
    (ec2_instances : List EC2Instance) (lambda_functions : List LambdaFunction)
    (t : NetworkTopology)
    (ht : t ∈ organize_network_topology vpcs subnets route_tables internet_gateways
      ec2_instances lambda_functions)
    (f : LambdaFunction) :
    f ∈ t.lambda_functions ↔
      f ∈ lambda_functions ∧ vpcConfigTruthy f.vpc_config = true ∧
        ∃ s ∈ t.subnets, s.resource_id ∈ f.subnet_ids := by
  obtain ⟨v, _, rfl⟩ := List.mem_map.mp ht
  simp only [organizeOneVPC, List.mem_filter, Bool.and_eq_true, List.any_eq_true,
    decide_eq_true_eq, List.elem_iff]
  tauto

/-- Witness for C4 as amended: a function with a non-empty `vpc_config` and a
matching subnet is placed. -/
theorem lambda_join_characterization_witness :
    lamWithCfg ∈ (organizeOneVPC [subnetA] [] [] [] [lamWithCfg] vpcA).lambda_functions :=
  (lambda_join_characterization [vpcA] [subnetA] [] [] [] [lamWithCfg]
      (organizeOneVPC [subnetA] [] [] [] [lamWithCfg] vpcA)
      (by simp [organize_network_topology]) lamWithCfg).mpr
    ⟨by decide, by decide, subnetA, by decide, by decide⟩

/-- Counterexample to C5: with a duplicated input record, the subnet with
resource id `subnet-1` appears twice in the child list of the produced
topology — the join performs no deduplication. -/
theorem organize_no_dedup_cex :
    ((organize_network_topology [vpcA] [subnetA, subnetA] [] [] [] []).map
        (fun t => t.subnets)) = [[subnetA, subnetA]] ∧
    ((organize_network_topology [vpcA] [subnetA, subnetA] [] [] [] []).map
        (fun t => t.subnets.countP (fun s => s.resource_id = "subnet-1"))) = [2] := by decide

/-- C5 as amended: the joins preserve input multiplicity (no deduplication);
when the input lists are duplicate-free by `resource_id`, every child list of
every produced topology is duplicate-free by `resource_id`. -/
theorem organize_nodup_preservation (vpcs : List VPC) (subnets : List Subnet)
    (route_tables : List RouteTable) (internet_gateways : List InternetGateway)
    (ec2_instances : List EC2Instance) (lambda_functions : List LambdaFunction)
    (t : NetworkTopology)
    (ht : t ∈ organize_network_topology vpcs subnets route_tables internet_gateways
      ec2_instances lambda_functions) :
    ((subnets.map (fun s => s.resource_id)).Nodup →
      (t.subnets.map (fun s => s.resource_id)).Nodup) ∧
    ((route_tables.map (fun rt => rt.resource_id)).Nodup →
      (t.route_tables.map (fun rt => rt.resource_id)).Nodup) ∧
    ((internet_gateways.map (fun igw => igw.resource_id)).Nodup →
      (t.internet_gateways.map (fun igw => igw.resource_id)).Nodup) ∧
    ((ec2_instances.map (fun inst => inst.resource_id)).Nodup →
      (t.ec2_instances.map (fun inst => inst.resource_id)).Nodup) ∧
    ((lambda_functions.map (fun f => f.resource_id)).Nodup →
      (t.lambda_functions.map (fun f => f.resource_id)).Nodup) := by
  obtain ⟨v, _, rfl⟩ := List.mem_map.mp ht
  refine ⟨fun h => h.sublist ?_, fun h => h.sublist ?_, fun h => h.sublist ?_,
    fun h => h.sublist ?_, fun h => h.sublist ?_⟩ <;>
    exact List.Sublist.map _ (List.filter_sublist _)

/-- Helper: the subnets of a topology produced by the per-VPC join. -/
theorem organizeOneVPC_subnets (subnets : List Subnet) (route_tables : List RouteTable)
    (internet_gateways : List InternetGateway) (ec2_instances : List EC2Instance)
    (lambda_functions : List LambdaFunction) (v : VPC) :
    (organizeOneVPC subnets route_tables internet_gateways ec2_instances lambda_functions
        v).subnets = subnets.filter (fun subnet => subnet.vpc_id = v.resource_id) := rfl

/-- Helper: the route tables of a topology produced by the per-VPC join. -/
theorem organizeOneVPC_route_tables (subnets : List Subnet) (route_tables : List RouteTable)
    (internet_gateways : List InternetGateway) (ec2_instances : List EC2Instance)
    (lambda_functions : List LambdaFunction) (v : VPC) :
    (organizeOneVPC subnets route_tables internet_gateways ec2_instances lambda_functions
        v).route_tables = route_tables.filter (fun rt => rt.vpc_id = v.resource_id) := rfl

/-- Helper: the internet gateways of a topology produced by the per-VPC join. -/
theorem organizeOneVPC_internet_gateways (subnets : List Subnet) (route_tables : List RouteTable)
    (internet_gateways : List InternetGateway) (ec2_instances : List EC2Instance)
    (lambda_functions : List LambdaFunction) (v : VPC) :
    (organizeOneVPC subnets route_tables internet_gateways ec2_instances lambda_functions
        v).internet_gateways =
      internet_gateways.filter (fun igw => igw.vpc_id = some v.resource_id) := rfl

/-- Helper: the EC2 instances of a topology produced by the per-VPC join. -/
theorem organizeOneVPC_ec2_instances (subnets : List Subnet) (route_tables : List RouteTable)
    (internet_gateways : List InternetGateway) (ec2_instances : List EC2Instance)
    (lambda_functions : List LambdaFunction) (v : VPC) :
    (organizeOneVPC subnets route_tables internet_gateways ec2_instances lambda_functions
        v).ec2_instances = ec2_instances.filter (fun inst => inst.vpc_id = v.resource_id) := rfl

/-- Helper: the VPC of a topology produced by the per-VPC join. -/
theorem organizeOneVPC_vpc (subnets : List Subnet) (route_tables : List RouteTable)
    (internet_gateways : List InternetGateway) (ec2_instances : List EC2Instance)
    (lambda_functions : List LambdaFunction) (v : VPC) :
    (organizeOneVPC subnets route_tables internet_gateways ec2_instances lambda_functions
        v).vpc = v := rfl

/-- Helper: a list of VPCs with pairwise-distinct resource ids contains
exactly one VPC carrying a given id that occurs in it. -/
theorem count_unique_vpc (vpcs : List VPC) (x : String)
    (hnd : (vpcs.map (fun v => v.resource_id)).Nodup)
    (hx : ∃ v ∈ vpcs, v.resource_id = x) :
    vpcs.countP (fun v => decide (v.resource_id = x)) = 1 := by
  induction vpcs with
  | nil => simp at hx
  | cons a l ih =>
      simp only [List.map_cons, List.nodup_cons] at hnd
      obtain ⟨hna, hndl⟩ := hnd
      rw [List.countP_cons]
      by_cases hax : a.resource_id = x
      · have hz : l.countP (fun v => decide (v.resource_id = x)) = 0 := by
          apply List.countP_eq_zero.mpr
          intro v hv
          simp only [decide_eq_true_eq]
          intro hvx
          apply hna
          rw [hax, ← hvx]
          exact List.mem_map_of_mem _ hv
        simp [hax, hz]
      · obtain ⟨v, hv, hvx⟩ := hx
        rcases List.mem_cons.mp hv with rfl | hvl
        · exact absurd hvx hax
        · simp only [hax]
          simpa using ih hndl ⟨v, hvl, hvx⟩

/-- C2 as amended: provided the input VPCs carry pairwise-distinct resource
ids, every subnet, route table, internet gateway and EC2 instance whose
`vpc_id` matches some input VPC is placed in exactly one produced topology,
namely the one whose VPC carries that id, and a child matching no input VPC
is placed in none. -/
theorem join_correctness (vpcs : List VPC) (subnets : List Subnet)
    (route_tables : List RouteTable) (internet_gateways : List InternetGateway)
    (ec2_instances : List EC2Instance) (lambda_functions : List LambdaFunction)
    (hnd : (vpcs.map (fun v => v.resource_id)).Nodup) :
    (∀ c : Subnet, c ∈ subnets →
      ((∃ v ∈ vpcs, v.resource_id = c.vpc_id) →
        (organize_network_topology vpcs subnets route_tables internet_gateways ec2_instances
          lambda_functions).countP (fun t => decide (c ∈ t.subnets)) = 1) ∧
      ((∀ v ∈ vpcs, v.resource_id ≠ c.vpc_id) →
        (organize_network_topology vpcs subnets route_tables internet_gateways ec2_instances
          lambda_functions).countP (fun t => decide (c ∈ t.subnets)) = 0) ∧
      (∀ t ∈ organize_network_topology vpcs subnets route_tables internet_gateways ec2_instances
          lambda_functions, c ∈ t.subnets → t.vpc.resource_id = c.vpc_id)) ∧
    (∀ c : RouteTable, c ∈ route_tables →
      ((∃ v ∈ vpcs, v.resource_id = c.vpc_id) →
        (organize_network_topology vpcs subnets route_tables internet_gateways ec2_instances
          lambda_functions).countP (fun t => decide (c ∈ t.route_tables)) = 1) ∧
      ((∀ v ∈ vpcs, v.resource_id ≠ c.vpc_id) →
        (organize_network_topology vpcs subnets route_tables internet_gateways ec2_instances
          lambda_functions).countP (fun t => decide (c ∈ t.route_tables)) = 0) ∧
      (∀ t ∈ organize_network_topology vpcs subnets route_tables internet_gateways ec2_instances
          lambda_functions, c ∈ t.route_tables → t.vpc.resource_id = c.vpc_id)) ∧
    (∀ c : InternetGateway, c ∈ internet_gateways →
      ((∃ v ∈ vpcs, c.vpc_id = some v.resource_id) →
        (organize_network_topology vpcs subnets route_tables internet_gateways ec2_instances
          lambda_functions).countP (fun t => decide (c ∈ t.internet_gateways)) = 1) ∧
      ((∀ v ∈ vpcs, c.vpc_id ≠ some v.resource_id) →
        (organize_network_topology vpcs subnets route_tables internet_gateways ec2_instances
          lambda_functions).countP (fun t => decide (c ∈ t.internet_gateways)) = 0) ∧
      (∀ t ∈ organize_network_topology vpcs subnets route_tables internet_gateways ec2_instances
          lambda_functions, c ∈ t.internet_gateways → c.vpc_id = some t.vpc.resource_id)) ∧
    (∀ c : EC2Instance, c ∈ ec2_instances →
      ((∃ v ∈ vpcs, v.resource_id = c.vpc_id) →
        (organize_network_topology vpcs subnets route_tables internet_gateways ec2_instances
          lambda_functions).countP (fun t => decide (c ∈ t.ec2_instances)) = 1) ∧
      ((∀ v ∈ vpcs, v.resource_id ≠ c.vpc_id) →
        (organize_network_topology vpcs subnets route_tables internet_gateways ec2_instances
          lambda_functions).countP (fun t => decide (c ∈ t.ec2_instances)) = 0) ∧
      (∀ t ∈ organize_network_topology vpcs subnets route_tables internet_gateways ec2_instances
          lambda_functions, c ∈ t.ec2_instances → t.vpc.resource_id = c.vpc_id)) := by
  have keyS : ∀ (c : Subnet), c ∈ subnets →
      (organize_network_topology vpcs subnets route_tables internet_gateways ec2_instances
        lambda_functions).countP (fun t => decide (c ∈ t.subnets)) =
      vpcs.countP (fun v => decide (v.resource_id = c.vpc_id)) := by
    intro c hc
    rw [organize_network_topology, List.countP_map]
    apply List.countP_congr
    intro v _
    simp only [Function.comp_apply, organizeOneVPC_subnets, List.mem_filter,
      decide_eq_true_eq, hc, true_and]
    exact eq_comm
  have keyR : ∀ (c : RouteTable), c ∈ route_tables →
      (organize_network_topology vpcs subnets route_tables internet_gateways ec2_instances
        lambda_functions).countP (fun t => decide (c ∈ t.route_tables)) =
      vpcs.countP (fun v => decide (v.resource_id = c.vpc_id)) := by
    intro c hc
    rw [organize_network_topology, List.countP_map]
    apply List.countP_congr
    intro v _
    simp only [Function.comp_apply, organizeOneVPC_route_tables, List.mem_filter,
      decide_eq_true_eq, hc, true_and]
    exact eq_comm
  have keyI : ∀ (c : InternetGateway), c ∈ internet_gateways →
      (organize_network_topology vpcs subnets route_tables internet_gateways ec2_instances
        lambda_functions).countP (fun t => decide (c ∈ t.internet_gateways)) =
      vpcs.countP (fun v => decide (c.vpc_id = some v.resource_id)) := by
    intro c hc
    rw [organize_network_topology, List.countP_map]
    apply List.countP_congr
    intro v _
    simp only [Function.comp_apply, organizeOneVPC_internet_gateways, List.mem_filter,
      decide_eq_true_eq, hc, true_and]
  have keyE : ∀ (c : EC2Instance), c ∈ ec2_instances →
      (organize_network_topology vpcs subnets route_tables internet_gateways ec2_instances
        lambda_functions).countP (fun t => decide (c ∈ t.ec2_instances)) =
      vpcs.countP (fun v => decide (v.resource_id = c.vpc_id)) := by
    intro c hc
    rw [organize_network_topology, List.countP_map]
    apply List.countP_congr
    intro v _
    simp only [Function.comp_apply, organizeOneVPC_ec2_instances, List.mem_filter,
      decide_eq_true_eq, hc, true_and]
    exact eq_comm
  refine ⟨fun c hc => ⟨?_, ?_, ?_⟩, fun c hc => ⟨?_, ?_, ?_⟩,
    fun c hc => ⟨?_, ?_, ?_⟩, fun c hc => ⟨?_, ?_, ?_⟩⟩
  · intro hx
    rw [keyS c hc]
    exact count_unique_vpc vpcs c.vpc_id hnd hx
  · intro hnone
    rw [keyS c hc]
    apply List.countP_eq_zero.mpr
    intro v hv
    simpa using hnone v hv
  · intro t ht hct
    obtain ⟨v, _, rfl⟩ := List.mem_map.mp ht
    rw [organizeOneVPC_subnets] at hct
    rw [organizeOneVPC_vpc]
    exact ((by simpa using (List.mem_filter.mp hct).2 : c.vpc_id = v.resource_id)).symm
  · intro hx
    rw [keyR c hc]
    exact count_unique_vpc vpcs c.vpc_id hnd hx
  · intro hnone
    rw [keyR c hc]
    apply List.countP_eq_zero.mpr
    intro v hv
    simpa using hnone v hv
  · intro t ht hct
    obtain ⟨v, _, rfl⟩ := List.mem_map.mp ht
    rw [organizeOneVPC_route_tables] at hct
    rw [organizeOneVPC_vpc]
    exact ((by simpa using (List.mem_filter.mp hct).2 : c.vpc_id = v.resource_id)).symm
  · rintro ⟨v0, hv0, hc0⟩
    rw [keyI c hc]
    have : vpcs.countP (fun v => decide (c.vpc_id = some v.resource_id)) =
        vpcs.countP (fun v => decide (v.resource_id = v0.resource_id)) := by
      apply List.countP_congr
      intro v _
      simp only [decide_eq_true_eq, hc0, Option.some.injEq]
      exact eq_comm
    rw [this]
    exact count_unique_vpc vpcs v0.resource_id hnd ⟨v0, hv0, rfl⟩
  · intro hnone
    rw [keyI c hc]
    apply List.countP_eq_zero.mpr
    intro v hv
    simpa using hnone v hv
  · intro t ht hct
    obtain ⟨v, _, rfl⟩ := List.mem_map.mp ht
    rw [organizeOneVPC_internet_gateways] at hct
    rw [organizeOneVPC_vpc]
    simpa using (List.mem_filter.mp hct).2
  · intro hx
    rw [keyE c hc]
    exact count_unique_vpc vpcs c.vpc_id hnd hx
  · intro hnone
    rw [keyE c hc]
    apply List.countP_eq_zero.mpr
    intro v hv
    simpa using hnone v hv
  · intro t ht hct
    obtain ⟨v, _, rfl⟩ := List.mem_map.mp ht
    rw [organizeOneVPC_ec2_instances] at hct
    rw [organizeOneVPC_vpc]
    exact ((by simpa using (List.mem_filter.mp hct).2 : c.vpc_id = v.resource_id)).symm

/-- Counterexample to C2 as stated: with two input VPC records sharing the
resource id `vpc-1`, the subnet `subnet-1` is placed in two produced
topologies, not exactly one. -/
theorem join_correctness_cex :
    (organize_network_topology [vpcA, vpcA'] [subnetA] [] [] [] []).countP
        (fun t => decide (subnetA ∈ t.subnets)) = 2 ∧
    ¬ ((organize_network_topology [vpcA, vpcA'] [subnetA] [] [] [] []).countP
        (fun t => decide (subnetA ∈ t.subnets)) = 1) := by decide

/-- Witness for C2 as amended at a concrete one-VPC input. -/
theorem join_correctness_witness :
    (organize_network_topology [vpcA] [subnetA] [] [] [] []).countP
        (fun t => decide (subnetA ∈ t.subnets)) = 1 :=
  ((join_correctness [vpcA] [subnetA] [] [] [] [] (by decide)).1 subnetA
    (by decide)).1 ⟨vpcA, by decide, by decide⟩

/-- Helper: string append is associative. -/
theorem str_append_assoc (a b c : String) : a ++ (b ++ c) = (a ++ b) ++ c :=
  (String.append_assoc a b c).symm

/-- Helper: the Python slice `s[:n]` has length at most `n`. -/
theorem strTake_length_le (s : String) (n : Nat) : (strTake s n).length ≤ n := by
  simp only [strTake, String.length, List.length_take]
  exact Nat.min_le_left ..

/-- Helper: a list of naturals that are all equal to `k` sums to its length
times `k`. -/
theorem sum_of_const (l : List Nat) (k : Nat) (h : ∀ x ∈ l, x = k) :
    l.sum = l.length * k := by
  induction l with
  | nil => simp
  | cons a t ih =>
      simp only [List.sum_cons, List.length_cons]
      rw [h a (by simp), ih (fun x hx => h x (by simp [hx]))]
      ring

/-- Counterexample to C3 as stated: an account with 7 route tables (each with
5 routes) spread over two topologies yields 21 note rows, not 15 — the
5-table limit is applied per VPC, not account-wide. -/
theorem route_note_truncation_cex :
    ((extAcc2.vpcs.flatMap (fun t => t.route_tables)).length = 7 ∧
      ∀ rt ∈ extAcc2.vpcs.flatMap (fun t => t.route_tables), rt.routes.length = 5) ∧
    (routeTableNoteRows extAcc2).length = 21 ∧
    ¬ ((routeTableNoteRows extAcc2).length = 15) := by decide

/-- C3 as amended: the note block keeps the first 5 route tables of each VPC
(per VPC, not account-wide) and the first 3 routes per table; every row is a
four-field row whose name field is at most 20 characters and whose
destination, target and status fields are truncated to 18, 18 and 10
characters; an account whose 7 route tables (5 routes each) all lie in a
single VPC yields exactly 15 rows. -/
theorem route_note_truncation (a : ExtAccountTopology) (t : ExtNetworkTopology)
    (hv : a.vpcs = [t]) (h7 : t.route_tables.length = 7)
    (h5 : ∀ rt ∈ t.route_tables, rt.routes.length = 5) :
    (routeTableNoteRows a).length = 15 ∧
    ∀ row ∈ routeTableNoteRows a, ∃ nm dest gw st,
      row = routeRow nm dest gw st ∧ nm.length ≤ 20 ∧ dest.length ≤ 18 ∧
        gw.length ≤ 18 ∧ st.length ≤ 10 := by
  constructor
  · rw [routeTableNoteRows, hv]
    simp only [List.flatMap_cons, List.flatMap_nil, List.append_nil]
    rw [List.length_flatMap]
    have hall : ∀ x ∈ (t.route_tables.take 5).map
        (fun rt => ((rt.routes.take 3).map (fun route =>
          routeRow (strTake (pyOrStr rt.name rt.resource_id) 20)
            (strTake (dictGet route "destination" "N/A") 18)
            (strTake (dictGet route "gateway_id" "local") 18)
            (strTake (dictGet route "state" "active") 10))).length), x = 3 := by
      intro x hx
      obtain ⟨rt, hrt, rfl⟩ := List.mem_map.mp hx
      rw [List.length_map, List.length_take, h5 rt (List.mem_of_mem_take hrt)]
      decide
    simp only [Function.comp_def]
    rw [sum_of_const _ 3 hall, List.length_map, List.length_take, h7]
    decide
  · intro row hrow
    rw [routeTableNoteRows, hv] at hrow
    simp only [List.flatMap_cons, List.flatMap_nil, List.append_nil,
      List.mem_flatMap, List.mem_map] at hrow
    obtain ⟨rt, _, route, _, rfl⟩ := hrow
    exact ⟨_, _, _, _, rfl, strTake_length_le .., strTake_length_le ..,
      strTake_length_le .., strTake_length_le ..⟩

/-- Witness for C3 as amended: the single-VPC seven-table account. -/
theorem route_note_truncation_witness :
    (routeTableNoteRows extAcc1).length = 15 :=
  (route_note_truncation extAcc1 extT7 rfl (by decide) (by decide)).1

/-- Helper: membership in an if-then-else whose then-branch is empty implies
membership in the else-branch. -/
theorem mem_ite_nil {α : Type} {c : Prop} [Decidable c] {l : List α} {a : α}
    (h : a ∈ if c then ([] : List α) else l) : a ∈ l := by
  by_cases hc : c
  · rw [if_pos hc] at h
    exact absurd h (List.not_mem_nil a)
  · rwa [if_neg hc] at h

/-- Helper: a string with a literal prefix differing from
`indent 1 ++ "Total EC2 Instances: "` within the first characters is not a
"Total EC2 Instances" summary line. -/
theorem ne_total_line (p x y : String) (i : Nat) (hip : i < p.data.length) (hiq : i < 23)
    (h : p.data[i]? ≠ ((TextDiagramGenerator.mk 2).indent 1 ++ "Total EC2 Instances: ").data[i]?) :
    p ++ x ≠ (TextDiagramGenerator.mk 2).indent 1 ++ ("Total EC2 Instances: " ++ y) := by
  rw [str_append_assoc]
  refine append_ne_append p _ x y i hip ?_ h
  have hlen : ((TextDiagramGenerator.mk 2).indent 1 ++ "Total EC2 Instances: ").data.length = 23 := by
    decide
  omega

/-- Helper: a string built from `indent 1` followed by a literal differing
from `"Total EC2 Instances: "` is not a "Total EC2 Instances" summary line. -/
theorem ne_total_line' (lit x y : String) (i : Nat)
    (hip : i < ((TextDiagramGenerator.mk 2).indent 1 ++ lit).data.length) (hiq : i < 23)
    (h : ((TextDiagramGenerator.mk 2).indent 1 ++ lit).data[i]? ≠
      ((TextDiagramGenerator.mk 2).indent 1 ++ "Total EC2 Instances: ").data[i]?) :
    (TextDiagramGenerator.mk 2).indent 1 ++ (lit ++ x) ≠
      (TextDiagramGenerator.mk 2).indent 1 ++ ("Total EC2 Instances: " ++ y) := by
  rw [str_append_assoc]
  exact ne_total_line _ x y i hip hiq h

/-- C7: a topology with zero EC2 instances produces a VPC-level summary with
no "Total EC2 Instances" line; one with exactly one instance produces that
line with value 1 (generator constructed with the default indent size 2, as
in main.py). -/
theorem vpc_summary_zero_suppression (t : NetworkTopology) :
    (t.ec2_instances = [] → ∀ n : Nat,
      (TextDiagramGenerator.mk 2).indent 1 ++ ("Total EC2 Instances: " ++ (toString n ++ "\n"))
        ∉ (TextDiagramGenerator.mk 2).generate_vpc_diagram t) ∧
    (t.ec2_instances.length = 1 →
      (TextDiagramGenerator.mk 2).indent 1 ++ ("Total EC2 Instances: " ++ (toString 1 ++ "\n"))
        ∈ (TextDiagramGenerator.mk 2).generate_vpc_diagram t) := by
  constructor
  · intro h0 n hmem
    rw [TextDiagramGenerator.generate_vpc_diagram] at hmem
    rcases List.mem_append.mp hmem with h | hF
    rcases List.mem_append.mp h with h | hE
    rcases List.mem_append.mp h with h | hD
    rcases List.mem_append.mp h with h | hC
    rcases List.mem_append.mp h with hA | hB
    · rcases List.mem_cons.mp hA with h | hA
      · exact ne_total_line "VPC: " _ _ 0 (by decide) (by decide) (by decide) h.symm
      rcases List.mem_cons.mp hA with h | hA
      · exact ne_total_line' "CIDR: " _ _ 2 (by decide) (by decide) (by decide) h.symm
      rcases List.mem_cons.mp hA with h | hA
      · exact ne_total_line' "State: " _ _ 2 (by decide) (by decide) (by decide) h.symm
      rcases List.mem_cons.mp hA with h | hA
      · exact ne_total_line' "Default: " _ _ 2 (by decide) (by decide) (by decide) h.symm
      · exact absurd hA (List.not_mem_nil _)
    · rcases List.mem_cons.mp (mem_ite_nil hB) with h | hB
      · have hne : (TextDiagramGenerator.mk 2).indent 1 ++ "Internet Gateways:\n" ≠
            (TextDiagramGenerator.mk 2).indent 1 ++ ("Total EC2 Instances: " ++ (toString n ++ "\n")) := by
          have := ne_total_line' "Internet Gateways:\n" "" (toString n ++ "\n") 2
            (by decide) (by decide) (by decide)
          simpa using this
        exact hne h.symm
      · obtain ⟨igw, _, h⟩ := List.mem_map.mp hB
        exact ne_total_line ((TextDiagramGenerator.mk 2).indent 2) _ _ 2
          (by decide) (by decide) (by decide) h
    · rcases List.mem_cons.mp (mem_ite_nil hC) with h | hC
      · exact ne_total_line' "Public Subnets: " _ _ 2 (by decide) (by decide) (by decide) h.symm
      · exact absurd hC (List.not_mem_nil _)
    · rcases List.mem_cons.mp (mem_ite_nil hD) with h | hD
      · exact ne_total_line' "Private Subnets: " _ _ 2 (by decide) (by decide) (by decide) h.symm
      · exact absurd hD (List.not_mem_nil _)
    · rw [h0] at hE
      simp at hE
    · rcases List.mem_cons.mp hF with h | hF
      · have hne : ("\n" : String) ≠
            (TextDiagramGenerator.mk 2).indent 1 ++ ("Total EC2 Instances: " ++ (toString n ++ "\n")) := by
          have := ne_total_line "\n" "" (toString n ++ "\n") 0 (by decide) (by decide) (by decide)
          simpa using this
        exact hne h.symm
      · exact absurd hF (List.not_mem_nil _)
  · intro h1
    rw [TextDiagramGenerator.generate_vpc_diagram]
    refine List.mem_append.mpr (Or.inl ?_)
    refine List.mem_append.mpr (Or.inr ?_)
    simp [h1]

/-- Witness for C7 at a concrete topology with one instance and at one with
none. -/
theorem vpc_summary_zero_suppression_witness :
    ((TextDiagramGenerator.mk 2).indent 1 ++ ("Total EC2 Instances: " ++ (toString 1 ++ "\n"))
        ∈ (TextDiagramGenerator.mk 2).generate_vpc_diagram
            (organizeOneVPC [subnetA] [] [] [instOrphan] [] vpcA)) ∧
    ((TextDiagramGenerator.mk 2).indent 1 ++ ("Total EC2 Instances: " ++ (toString 3 ++ "\n"))
        ∉ (TextDiagramGenerator.mk 2).generate_vpc_diagram
            (organizeOneVPC [subnetA] [] [] [] [] vpcA)) :=
  ⟨(vpc_summary_zero_suppression (organizeOneVPC [subnetA] [] [] [instOrphan] [] vpcA)).2
      (by decide),
   (vpc_summary_zero_suppression (organizeOneVPC [subnetA] [] [] [] [] vpcA)).1
      (by decide) 3⟩

/-- C10: an EC2 instance whose `vpc_id` matches the topology's VPC but whose
`subnet_id` matches none of its subnets is still placed in the topology's
`ec2_instances` (so it is counted in the VPC-level and account-level instance
totals), yet it is listed by `get_instances_by_subnet` for none of the
topology's subnets — the accessor both text and PlantUML renderers use to
populate subnet containers. -/
theorem orphan_instance_counted_not_listed (vpcs : List VPC) (subnets : List Subnet)
    (route_tables : List RouteTable) (internet_gateways : List InternetGateway)
    (ec2_instances : List EC2Instance) (lambda_functions : List LambdaFunction)
    (t : NetworkTopology)
    (ht : t ∈ organize_network_topology vpcs subnets route_tables internet_gateways
      ec2_instances lambda_functions)
    (i : EC2Instance) (hi : i ∈ ec2_instances) (hm : i.vpc_id = t.vpc.resource_id)
    (hs : ∀ s ∈ t.subnets, s.resource_id ≠ i.subnet_id) :
    i ∈ t.ec2_instances ∧
    (∀ s ∈ t.subnets, i ∉ t.get_instances_by_subnet s.resource_id) ∧
    (∀ region ts, t ∈ ts → i ∈ (create_account_topology region ts).get_all_instances) := by
  obtain ⟨v, _, rfl⟩ := List.mem_map.mp ht
  rw [organizeOneVPC_vpc] at hm
  have hmem1 : i ∈ (organizeOneVPC subnets route_tables internet_gateways ec2_instances
      lambda_functions v).ec2_instances := by
    rw [organizeOneVPC_ec2_instances]
    exact List.mem_filter.mpr ⟨hi, by simp [hm]⟩
  refine ⟨hmem1, ?_, ?_⟩
  · intro s hssub hmem
    rw [NetworkTopology.get_instances_by_subnet] at hmem
    have h2 : i.subnet_id = s.resource_id := by simpa using (List.mem_filter.mp hmem).2
    exact hs s hssub h2.symm
  · intro region ts hts
    rw [create_account_topology, AccountTopology.get_all_instances]
    exact List.mem_flatMap.mpr ⟨_, hts, hmem1⟩

/-- Witness for C10 at a concrete orphan-subnet instance. -/
theorem orphan_instance_counted_not_listed_witness :
    instOrphan ∈ (organizeOneVPC [subnetA] [] [] [instOrphan] [] vpcA).ec2_instances :=
  (orphan_instance_counted_not_listed [vpcA] [subnetA] [] [] [instOrphan] []
      (organizeOneVPC [subnetA] [] [] [instOrphan] [] vpcA)
      (by simp [organize_network_topology]) instOrphan (by decide) (by decide)
      (by decide)).1

/-- Witness for C5 as amended at a concrete duplicate-free input. -/
theorem organize_nodup_preservation_witness :
    ((organizeOneVPC [subnetA] [] [] [] [] vpcA).subnets.map (fun s => s.resource_id)).Nodup :=
  (organize_nodup_preservation [vpcA] [subnetA] [] [] [] []
      (organizeOneVPC [subnetA] [] [] [] [] vpcA)
      (by simp [organize_network_topology])).1 (by decide)

/-- Helper: membership in the first-seen fold from an arbitrary accumulator. -/
theorem azFirstSeen_go_mem (p : List Subnet) (acc : List String) (az : String) :
    az ∈ p.foldl azStep acc ↔ az ∈ acc ∨ ∃ s ∈ p, s.availability_zone = az := by
  induction p generalizing acc with
  | nil => simp
  | cons a l ih =>
      rw [List.foldl_cons, ih]
      have hstep : az ∈ azStep acc a ↔ az ∈ acc ∨ a.availability_zone = az := by
        rw [azStep]
        by_cases h : acc.contains a.availability_zone
        · rw [if_pos h]
          constructor
          · exact Or.inl
          · rintro (h' | h')
            · exact h'
            · rw [← h']
              simpa [List.elem_iff] using h
        · rw [if_neg h]
          simp [List.mem_append, eq_comm]
      rw [hstep]
      constructor
      · rintro ((h' | h') | ⟨s, hs, hsaz⟩)
        · exact Or.inl h'
        · exact Or.inr ⟨a, List.mem_cons_self .., h'⟩
        · exact Or.inr ⟨s, List.mem_cons_of_mem _ hs, hsaz⟩
      · rintro (h' | ⟨s, hs, hsaz⟩)
        · exact Or.inl (Or.inl h')
        · rcases List.mem_cons.mp hs with rfl | hsl
          · exact Or.inl (Or.inr hsaz)
          · exact Or.inr ⟨s, hsl, hsaz⟩

/-- Helper: an AZ is first-seen-recorded iff some input subnet carries it. -/
theorem azFirstSeen_mem (p : List Subnet) (az : String) :
    az ∈ azFirstSeen p ↔ ∃ s ∈ p, s.availability_zone = az := by
  rw [azFirstSeen, azFirstSeen_go_mem]
  simp

/-- Helper: first-seen collection over a snoc. -/
theorem azFirstSeen_append (p : List Subnet) (s : Subnet) :
    azFirstSeen (p ++ [s]) =
      if (azFirstSeen p).contains s.availability_zone then azFirstSeen p
      else azFirstSeen p ++ [s.availability_zone] := by
  rw [azFirstSeen, List.foldl_append, List.foldl_cons, List.foldl_nil]
  rfl

/-- Helper: one `azInsert` step on the specified grouping of a prefix yields
the specified grouping of the prefix extended by one subnet. -/
theorem azInsert_spec (p : List Subnet) (s : Subnet) :
    azInsert (azGroupsSpec p) s = azGroupsSpec (p ++ [s]) := by
  by_cases hmem : s.availability_zone ∈ azFirstSeen p
  · have hcond : (azGroupsSpec p).any (fun g => decide (g.1 = s.availability_zone)) = true := by
      rw [azGroupsSpec, List.any_eq_true]
      exact ⟨_, List.mem_map_of_mem _ hmem, by simp⟩
    have hseen : azFirstSeen (p ++ [s]) = azFirstSeen p := by
      rw [azFirstSeen_append, if_pos (by simpa [List.elem_iff] using hmem)]
    simp only [azInsert]
    rw [if_pos hcond, azGroupsSpec, azGroupsSpec, hseen, List.map_map]
    apply List.map_congr_left
    intro a ha
    simp only [Function.comp_def]
    by_cases haz : a = s.availability_zone
    · subst haz
      by_cases hp : s.map_public_ip_on_launch <;>
        simp [List.filter_append, List.filter_singleton, hp]
    · have hne : s.availability_zone ≠ a := fun h => haz h.symm
      simp [haz, hne, List.filter_append, List.filter_singleton]
  · have hcond : ¬ ((azGroupsSpec p).any (fun g => decide (g.1 = s.availability_zone)) = true) := by
      rw [azGroupsSpec, List.any_eq_true]
      rintro ⟨g, hg, hg1⟩
      obtain ⟨a, ha, rfl⟩ := List.mem_map.mp hg
      simp only [decide_eq_true_eq] at hg1
      have hg2 : a = s.availability_zone := hg1
      exact hmem (hg2 ▸ ha)
    have hseen : azFirstSeen (p ++ [s]) = azFirstSeen p ++ [s.availability_zone] := by
      rw [azFirstSeen_append, if_neg (by simpa [List.elem_iff] using hmem)]
    have hnone : ∀ x ∈ p, x.availability_zone ≠ s.availability_zone := by
      intro x hx hxa
      exact hmem ((azFirstSeen_mem p s.availability_zone).mpr ⟨x, hx, hxa⟩)
    have hfp : p.filter
        (fun x => x.availability_zone == s.availability_zone && x.map_public_ip_on_launch) = [] :=
      List.filter_eq_nil_iff.mpr (fun x hx => by simp [hnone x hx])
    have hfq : p.filter
        (fun x => x.availability_zone == s.availability_zone && !x.map_public_ip_on_launch) = [] :=
      List.filter_eq_nil_iff.mpr (fun x hx => by simp [hnone x hx])
    simp only [azInsert]
    rw [if_neg hcond, azGroupsSpec, azGroupsSpec, hseen, List.map_append, List.map_map,
      List.map_append]
    congr 1
    · apply List.map_congr_left
      intro a ha
      simp only [Function.comp_def]
      have hane : a ≠ s.availability_zone := fun h => hmem (h ▸ ha)
      have hne : s.availability_zone ≠ a := fun h => hane h.symm
      simp [hane, hne, List.filter_append, List.filter_singleton]
    · by_cases hp : s.map_public_ip_on_launch <;>
        simp [hp, hfp, hfq, List.filter_append, List.filter_singleton]

/-- C6: the AZ grouping computed by the PlantUML per-VPC pass equals the
specified grouping: one group per availability zone in first-seen order,
holding exactly the public subnets of that AZ in input order and the private
subnets of that AZ in input order — so subnets sharing an AZ land in the same
(unique) AZ container regardless of adjacency in the input. -/
theorem az_grouping_deterministic (subnets : List Subnet) :
    az_groups subnets = azGroupsSpec subnets := by
  induction subnets using List.reverseRecOn with
  | nil => rfl
  | append_singleton p s ih =>
      rw [az_groups, List.foldl_append, List.foldl_cons, List.foldl_nil]
      rw [show p.foldl azInsert [] = az_groups p from rfl, ih]
      exact azInsert_spec p s
